import Mathlib

/-!
Verification of `pkg/s3/agent/agent.go` (package `agent` of the cosi driver).

The package constructs an S3 agent handle from a configuration record:
it validates the four configuration fields, builds a TLS transport from
the optional root certificate, wires an HTTP client with a fixed timeout,
opens an AWS-SDK session with fixed policy constants, and wraps the
resulting API client.

External collaborators (Go `net/url.Parse`, `utils.BuildTLSConfig`,
`session.NewSession`) are not part of `src/pkg/s3/agent`; they are
represented by an `Ext` record of oracles so that the theorems quantify
over every possible behaviour of those collaborators, plus one concrete
instantiation (`specExt`) modelled from the specification for evaluating
witnesses.

Go errors are modelled by their message strings (every error in this file
is created by `fmt.Errorf`); the Go result pair `(*S3Agent, error)` —
where every return in the source sets exactly one of the two — is
modelled by `Except String S3Agent`.
-/

namespace Agent

/-- Source constant `defaultRegion = "us-east-1"` (agent.go line 33). -/
def defaultRegion : String := "us-east-1"

/-- Nanoseconds in one Go `time.Second`. -/
def timeSecond : Nat := 1000000000

/-- Source constant `httpTimeOut = 200 * time.Second` (agent.go line 34),
in nanoseconds, as Go `time.Duration` counts. -/
def httpTimeOut : Nat := 200 * timeSecond

/-- Source constant `maxRetries = 5` (agent.go line 35). -/
def maxRetries : Nat := 5

/-- Source struct `Config` (agent.go lines 44-49): access key, secret key,
endpoint (strings) and the optional root certificate bytes (`RootCA []byte`,
`none` standing for the nil slice). -/
structure Config where
  accessKey : String
  secretKey : String
  endpoint  : String
  rootCA    : Option (List Nat)
deriving Repr, DecidableEq

/-- Modelled from the spec: the `tls.Config` value produced by
`utils.BuildTLSConfig` (package `pkg/utils`, not under `src/`): a transport
trust configuration that either uses system trust or trusts the supplied
certificate-authority bytes. The theorems never inspect it beyond identity. -/
structure TLSConfig where
  rootCAs : Option (List Nat)
deriving Repr, DecidableEq

/-- Source value `tr := &http.Transport{TLSClientConfig: tlsConfig}`
(agent.go lines 63-65). -/
structure Transport where
  tlsClientConfig : TLSConfig
deriving Repr, DecidableEq

/-- Source value `client := http.Client{Timeout: httpTimeOut, Transport: tr}`
(agent.go lines 67-70); the timeout is in nanoseconds. -/
structure HTTPClient where
  timeout   : Nat
  transport : Transport
deriving Repr, DecidableEq

/-- Source call `credentials.NewStaticCredentials(cfg.AccessKey, cfg.SecretKey, "")`
(agent.go line 75): static credentials with an empty session token. -/
structure StaticCredentials where
  accessKeyID     : String
  secretAccessKey : String
  sessionToken    : String
deriving Repr, DecidableEq

/-- The `aws.Config` assembled by the `aws.NewConfig().With...` chain
(agent.go lines 73-79): region, static credentials, endpoint, forced
path-style flag, maximum retry count and the HTTP client. -/
structure AWSConfig where
  region           : String
  creds            : StaticCredentials
  endpoint         : String
  s3ForcePathStyle : Bool
  maxRetries       : Nat
  httpClient       : HTTPClient
deriving Repr, DecidableEq

/-- Modelled from the spec: the AWS-SDK session (`session.NewSession`, an
external collaborator): a signing context encapsulating exactly the
configuration it was opened with. -/
structure Session where
  config : AWSConfig
deriving Repr, DecidableEq

/-- Modelled from the spec: the S3 API client produced by `s3.New(s)`
(external SDK): it is constructed from the session alone. -/
structure S3 where
  session : Session
deriving Repr, DecidableEq

/-- Source struct `S3Agent` (agent.go lines 39-41): the returned handle,
wrapping exactly one S3 API client. -/
structure S3Agent where
  client : S3
deriving Repr, DecidableEq

/-- Modelled from the spec: the behaviours of the three external
collaborators consumed by the constructor, as oracles.
`urlParseErr s` is the failure (if any) of Go `net/url.Parse` on `s`;
`buildTLSConfig` is `utils.BuildTLSConfig` (repository code absent from
`src/`): optional CA bytes in, TLS configuration or error out;
`sessionErr a` is the failure (if any) of `session.NewSession` on the
assembled `aws.Config` — on success the session encapsulates that config. -/
structure Ext where
  urlParseErr    : String → Option String
  buildTLSConfig : Option (List Nat) → Except String TLSConfig
  sessionErr     : AWSConfig → Option String

/-- Modelled from the spec: `session.NewSession` returns the error reported
by the oracle, or a session encapsulating the supplied configuration. -/
def sessionNew (ext : Ext) (a : AWSConfig) : Except String Session :=
  match ext.sessionErr a with
  | some e => .error e
  | none => .ok { config := a }

/-- Modelled from the spec: `s3.New(s)` constructs the API client from the
session. -/
def s3New (s : Session) : S3 := { session := s }

/-- Source function `validateConfig` (agent.go lines 91-109), with the Go
`url.Parse` call supplied by the oracle: empty-endpoint check, URL-parse
check, empty-access-key check, empty-secret-key check, in that order;
`none` models the nil error. -/
def validateConfig (ext : Ext) (cfg : Config) : Option String :=
  if cfg.endpoint = "" then
    some "endpoint is empty"
  else
    match ext.urlParseErr cfg.endpoint with
    | some err =>
        some ("url parse endpoint [" ++ cfg.endpoint ++ "] failed, error is [" ++ err ++ "]")
    | none =>
        if cfg.accessKey = "" then
          some "access key is empty"
        else if cfg.secretKey = "" then
          some "secret key is empty"
        else
          none

/-- The `aws.Config` assembled in `NewS3Agent` (agent.go lines 63-79) from
the validated configuration and the TLS configuration: transport, HTTP
client with the fixed timeout, then the `aws.NewConfig()` chain with the
fixed region, static credentials, caller endpoint, forced path style and
fixed retry count. -/
def buildAWSConfig (cfg : Config) (tlsConfig : TLSConfig) : AWSConfig :=
  { region := defaultRegion
    creds := { accessKeyID := cfg.accessKey, secretAccessKey := cfg.secretKey, sessionToken := "" }
    endpoint := cfg.endpoint
    s3ForcePathStyle := true
    maxRetries := Agent.maxRetries
    httpClient :=
      { timeout := httpTimeOut
        transport := { tlsClientConfig := tlsConfig } } }

/-- Source function `NewS3Agent` (agent.go lines 52-88): validate, build the
TLS configuration (wrapping its error with the "build tls config failed"
context), assemble the HTTP client and `aws.Config`, open the session
(propagating its error unchanged), and wrap the API client in the handle. -/
def NewS3Agent (ext : Ext) (cfg : Config) : Except String S3Agent :=
  match validateConfig ext cfg with
  | some err => .error err
  | none =>
    match ext.buildTLSConfig cfg.rootCA with
    | .error err => .error ("build tls config failed, error is [" ++ err ++ "]")
    | .ok tlsConfig =>
      match sessionNew ext (buildAWSConfig cfg tlsConfig) with
      | .error err => .error err
      | .ok s => .ok { client := s3New s }

/-- The spec's `MissingField` error condition: one of the three fixed
empty-field messages produced by `validateConfig`. -/
def isMissingField (e : String) : Prop :=
  e = "endpoint is empty" ∨ e = "access key is empty" ∨ e = "secret key is empty"

instance (e : String) : Decidable (isMissingField e) := by
  unfold isMissingField; infer_instance

/-- Modelled from the spec: Go `net/url.Parse` rejects URL strings that
contain ASCII control characters (the spec's own example of malformed URL
syntax) and accepts the rest. -/
def specUrlParseErr (s : String) : Option String :=
  if s.data.any (fun c => decide (c.toNat < 32) || decide (c.toNat = 127)) then
    some "net/url: invalid control character in URL"
  else
    none

/-- Modelled from the spec: a concrete instantiation of the external
collaborators for evaluating witnesses — `url.Parse` as `specUrlParseErr`,
`BuildTLSConfig` trusting whatever bytes it is given (system trust on
`none`), and a session opening that always succeeds. -/
def specExt : Ext :=
  { urlParseErr := specUrlParseErr
    buildTLSConfig := fun roots => .ok { rootCAs := roots }
    sessionErr := fun _ => none }

/-- A concrete instantiation whose TLS-configuration builder always fails,
as it would on corrupt certificate material. -/
def failTLSExt : Ext :=
  { specExt with buildTLSConfig := fun _ => .error "asn1 syntax error" }

/-- A concrete instantiation whose session opening always fails. -/
def failSessionExt : Ext :=
  { specExt with sessionErr := fun _ => some "session open failed" }

/-- The spec's concrete happy-path scenario configuration. -/
def goodCfg : Config :=
  { accessKey := "AK", secretKey := "SK", endpoint := "https://s3.example.com", rootCA := none }

/-- A configuration whose endpoint is a control character: non-empty but
not parseable as a URL. -/
def ctrlCfg : Config :=
  { accessKey := "", secretKey := "SK", endpoint := "\x01", rootCA := none }

/-- The spec's concrete missing-access-key scenario configuration. -/
def emptyAccessCfg : Config :=
  { accessKey := "", secretKey := "SK", endpoint := "https://s3.example.com", rootCA := none }

/-- A configuration with an empty endpoint. -/
def emptyEndpointCfg : Config :=
  { accessKey := "AK", secretKey := "SK", endpoint := "", rootCA := none }

/-- A configuration with both the endpoint and both keys empty. -/
def emptyBothCfg : Config :=
  { accessKey := "", secretKey := "", endpoint := "", rootCA := none }

/-- The spec's concrete scenario with only the secret key empty. -/
def emptySecretCfg : Config :=
  { accessKey := "AK", secretKey := "", endpoint := "https://s3.example.com", rootCA := none }

/-- The handle produced by the happy-path construction under `specExt`. -/
def specAgent : S3Agent :=
  { client := { session := { config := buildAWSConfig goodCfg { rootCAs := none } } } }

/-- Helper: a validation error is returned by `NewS3Agent` verbatim
(agent.go lines 54-56). -/
theorem validate_error_propagates (ext : Ext) (cfg : Config) (e : String)
    (h : validateConfig ext cfg = some e) : NewS3Agent ext cfg = .error e := by
  unfold NewS3Agent
  rw [h]

/-- Helper: inversion of a successful construction — the handle wraps a
client whose session encapsulates exactly the `aws.Config` assembled from
the input configuration and the TLS configuration the builder returned. -/
theorem newS3Agent_ok_inv (ext : Ext) (cfg : Config) (a : S3Agent)
    (h : NewS3Agent ext cfg = .ok a) :
    ∃ t, ext.buildTLSConfig cfg.rootCA = .ok t ∧
      a = { client := { session := { config := buildAWSConfig cfg t } } } := by
  unfold NewS3Agent sessionNew at h
  cases hv : validateConfig ext cfg <;> simp [hv] at h
  cases ht : ext.buildTLSConfig cfg.rootCA <;> simp [ht] at h
  rename_i t
  cases hs : ext.sessionErr (buildAWSConfig cfg t) <;> simp [hs] at h
  exact ⟨t, rfl, h.symm⟩

/-- Claim C1, as stated, is false: a configuration may have an empty access
key while its endpoint is a non-empty string that `url.Parse` rejects (here
the control character `"\x01"`, the spec's own example of malformed URL
syntax); `NewS3Agent` then returns the URL-parse error, which is not one of
the three `MissingField` messages. -/
theorem c1_counterexample :
    ctrlCfg.accessKey = "" ∧
    NewS3Agent specExt ctrlCfg =
      .error "url parse endpoint [\x01] failed, error is [net/url: invalid control character in URL]" ∧
    ¬ isMissingField
      "url parse endpoint [\x01] failed, error is [net/url: invalid control character in URL]" :=
  ⟨rfl, rfl, by decide⟩

/-- Claim C1 (amended): for every configuration in which the endpoint is
empty, or in which the endpoint parses as a URL and the access key or the
secret key is empty, `NewS3Agent` returns a `MissingField` error and no
handle; the result is pinned for every behaviour of the TLS builder and the
session opener, so construction never proceeds to them. -/
theorem c1_missing_field (ext : Ext) (cfg : Config)
    (h : cfg.endpoint = "" ∨
      (ext.urlParseErr cfg.endpoint = none ∧ (cfg.accessKey = "" ∨ cfg.secretKey = ""))) :
    ∃ e, NewS3Agent ext cfg = .error e ∧ isMissingField e := by
  by_cases hep : cfg.endpoint = ""
  · exact ⟨"endpoint is empty", by simp [NewS3Agent, validateConfig, hep], Or.inl rfl⟩
  · rcases h with h | ⟨hu, hk⟩
    · exact absurd h hep
    · by_cases hak : cfg.accessKey = ""
      · exact ⟨"access key is empty",
          by simp [NewS3Agent, validateConfig, hep, hu, hak], Or.inr (Or.inl rfl)⟩
      · rcases hk with hk | hsk
        · exact absurd hk hak
        · exact ⟨"secret key is empty",
            by simp [NewS3Agent, validateConfig, hep, hu, hak, hsk], Or.inr (Or.inr rfl)⟩

/-- Witness for the amended C1 at the empty-endpoint configuration. -/
theorem c1_missing_field_witness :
    ∃ e, NewS3Agent specExt emptyEndpointCfg = .error e ∧ isMissingField e :=
  c1_missing_field specExt emptyEndpointCfg (Or.inl rfl)

/-- Claim C2: for every configuration whose endpoint is non-empty but
rejected by `url.Parse`, `NewS3Agent` returns the `InvalidEndpoint` error
(the `url parse endpoint [...] failed` message) and no handle, for every
behaviour of the TLS builder and the session opener. -/
theorem c2_invalid_endpoint (ext : Ext) (cfg : Config) (e : String)
    (hep : cfg.endpoint ≠ "") (hu : ext.urlParseErr cfg.endpoint = some e) :
    NewS3Agent ext cfg =
      .error ("url parse endpoint [" ++ cfg.endpoint ++ "] failed, error is [" ++ e ++ "]") := by
  simp [NewS3Agent, validateConfig, hep, hu]

/-- Witness for C2 at the control-character endpoint. -/
theorem c2_invalid_endpoint_witness :
    ctrlCfg.endpoint ≠ "" ∧
    NewS3Agent specExt ctrlCfg =
      .error ("url parse endpoint [" ++ ctrlCfg.endpoint ++
        "] failed, error is [net/url: invalid control character in URL]") :=
  ⟨by decide, c2_invalid_endpoint specExt ctrlCfg _ (by decide) rfl⟩

/-- Claim C3: for every configuration with non-empty keys, a non-empty
endpoint accepted by `url.Parse` and no root certificate, whenever the TLS
builder and the session opener succeed (the spec asserts they do in this
scenario), `NewS3Agent` returns a handle wrapping a client whose configured
endpoint is the caller-supplied endpoint and whose path-style flag is on. -/
theorem c3_success (ext : Ext) (cfg : Config) (t : TLSConfig)
    (hep : cfg.endpoint ≠ "") (hu : ext.urlParseErr cfg.endpoint = none)
    (hak : cfg.accessKey ≠ "") (hsk : cfg.secretKey ≠ "")
    (hroot : cfg.rootCA = none)
    (htls : ext.buildTLSConfig none = .ok t)
    (hsess : ext.sessionErr (buildAWSConfig cfg t) = none) :
    ∃ a, NewS3Agent ext cfg = .ok a ∧
      a.client.session.config.endpoint = cfg.endpoint ∧
      a.client.session.config.s3ForcePathStyle = true := by
  refine ⟨{ client := { session := { config := buildAWSConfig cfg t } } }, ?_, rfl, rfl⟩
  simp [NewS3Agent, validateConfig, sessionNew, s3New, hep, hu, hak, hsk, hroot, htls, hsess]

/-- Witness for C3 at the spec's concrete happy-path scenario. -/
theorem c3_success_witness :
    ∃ a, NewS3Agent specExt goodCfg = .ok a ∧
      a.client.session.config.endpoint = "https://s3.example.com" ∧
      a.client.session.config.s3ForcePathStyle = true :=
  c3_success specExt goodCfg { rootCAs := none }
    (by decide) (by decide) (by decide) (by decide) rfl rfl rfl

/-- Claim C4: whenever validation passes and the TLS-configuration builder
fails with an error `e`, `NewS3Agent` returns the error wrapped in the
`build tls config failed` context and no handle; the result is pinned for
every behaviour of the session opener, so construction never proceeds to
the session or the client. -/
theorem c4_tls_error (ext : Ext) (cfg : Config) (e : String)
    (hval : validateConfig ext cfg = none)
    (htls : ext.buildTLSConfig cfg.rootCA = .error e) :
    NewS3Agent ext cfg = .error ("build tls config failed, error is [" ++ e ++ "]") := by
  unfold NewS3Agent
  rw [hval]
  simp [htls]

/-- Witness for C4 under a TLS builder that rejects its input. -/
theorem c4_tls_error_witness :
    NewS3Agent failTLSExt goodCfg =
      .error "build tls config failed, error is [asn1 syntax error]" :=
  c4_tls_error failTLSExt goodCfg "asn1 syntax error" (by decide) rfl

/-- Claim C5: whenever validation passes, the TLS builder succeeds, and the
session-opening call fails with an error `e`, `NewS3Agent` returns exactly
`e` — not wrapped, not annotated — and no handle. -/
theorem c5_session_error (ext : Ext) (cfg : Config) (t : TLSConfig) (e : String)
    (hval : validateConfig ext cfg = none)
    (htls : ext.buildTLSConfig cfg.rootCA = .ok t)
    (hsess : ext.sessionErr (buildAWSConfig cfg t) = some e) :
    NewS3Agent ext cfg = .error e := by
  unfold NewS3Agent
  rw [hval]
  simp [htls, sessionNew, hsess]

/-- Witness for C5 under a session opener that always fails. -/
theorem c5_session_error_witness :
    NewS3Agent failSessionExt goodCfg = .error "session open failed" :=
  c5_session_error failSessionExt goodCfg { rootCAs := none } "session open failed"
    (by decide) rfl rfl

/-- Claim C6: the `aws.Config` assembled by the constructor — whatever the
caller's configuration and whatever TLS configuration the builder returned
— always carries the 200-second HTTP timeout, the retry maximum 5, the
placeholder region `us-east-1` and forced path-style addressing; and every
handle `NewS3Agent` returns wraps a client carrying those same four fixed
values. None of them is read from the caller's configuration. -/
theorem c6_fixed_policy :
    (∀ (cfg : Config) (t : TLSConfig),
      (buildAWSConfig cfg t).httpClient.timeout = 200 * timeSecond ∧
      (buildAWSConfig cfg t).maxRetries = 5 ∧
      (buildAWSConfig cfg t).region = defaultRegion ∧
      (buildAWSConfig cfg t).s3ForcePathStyle = true) ∧
    (∀ (ext : Ext) (cfg : Config) (a : S3Agent), NewS3Agent ext cfg = .ok a →
      a.client.session.config.httpClient.timeout = 200 * timeSecond ∧
      a.client.session.config.maxRetries = 5 ∧
      a.client.session.config.region = defaultRegion ∧
      a.client.session.config.s3ForcePathStyle = true) := by
  refine ⟨fun cfg t => ⟨rfl, rfl, rfl, rfl⟩, fun ext cfg a h => ?_⟩
  obtain ⟨t, -, rfl⟩ := newS3Agent_ok_inv ext cfg a h
  exact ⟨rfl, rfl, rfl, rfl⟩

/-- Witness for C6 at the happy-path handle. -/
theorem c6_fixed_policy_witness :
    specAgent.client.session.config.httpClient.timeout = 200 * timeSecond ∧
    specAgent.client.session.config.maxRetries = 5 ∧
    specAgent.client.session.config.region = defaultRegion ∧
    specAgent.client.session.config.s3ForcePathStyle = true :=
  c6_fixed_policy.2 specExt goodCfg specAgent rfl

/-- Claim C7: for the configuration with an empty access key, secret key
`"SK"` and endpoint `"https://s3.example.com"`, construction fails with the
`MissingField` message that references the access key — not the secret-key
message and not a message mentioning the endpoint — for every external
behaviour in which `url.Parse` accepts that endpoint. -/
theorem c7_missing_access_key (ext : Ext)
    (h : ext.urlParseErr "https://s3.example.com" = none) :
    NewS3Agent ext emptyAccessCfg = .error "access key is empty" := by
  simp [NewS3Agent, validateConfig, emptyAccessCfg, h]

/-- Witness for C7 under the modelled `url.Parse`. -/
theorem c7_missing_access_key_witness :
    NewS3Agent specExt emptyAccessCfg = .error "access key is empty" :=
  c7_missing_access_key specExt (by decide)

/-- Claim C8: validation and construction are pure functions of the four
configuration fields — two configurations that agree on all four fields are
validated and constructed identically under every external behaviour — and
the only data the constructor copies out of the configuration into the
derived `aws.Config` are the access key, the secret key and the endpoint,
unchanged. In the Go source `Config` is passed by value and never written
through, so the caller's record is the same before and after either call. -/
theorem c8_pure (ext : Ext) (cfg cfg' : Config)
    (h1 : cfg.accessKey = cfg'.accessKey) (h2 : cfg.secretKey = cfg'.secretKey)
    (h3 : cfg.endpoint = cfg'.endpoint) (h4 : cfg.rootCA = cfg'.rootCA) :
    validateConfig ext cfg = validateConfig ext cfg' ∧
    NewS3Agent ext cfg = NewS3Agent ext cfg' ∧
    (∀ t, (buildAWSConfig cfg t).creds.accessKeyID = cfg.accessKey ∧
      (buildAWSConfig cfg t).creds.secretAccessKey = cfg.secretKey ∧
      (buildAWSConfig cfg t).endpoint = cfg.endpoint) := by
  obtain rfl : cfg = cfg' := by cases cfg; cases cfg'; simp_all
  exact ⟨rfl, rfl, fun t => ⟨rfl, rfl, rfl⟩⟩

/-- Witness for C8 at the happy-path configuration. -/
theorem c8_pure_witness :
    validateConfig specExt goodCfg = validateConfig specExt goodCfg ∧
    NewS3Agent specExt goodCfg = NewS3Agent specExt goodCfg ∧
    (∀ t, (buildAWSConfig goodCfg t).creds.accessKeyID = goodCfg.accessKey ∧
      (buildAWSConfig goodCfg t).creds.secretAccessKey = goodCfg.secretKey ∧
      (buildAWSConfig goodCfg t).endpoint = goodCfg.endpoint) :=
  c8_pure specExt goodCfg goodCfg rfl rfl rfl rfl

/-- Claim C9: the validation checks run in the order endpoint-emptiness,
endpoint URL-parse, access-key emptiness, secret-key emptiness, and the
first failing check determines the error: an empty endpoint wins over
everything (whatever the keys are), and with a parseable endpoint an empty
access key wins over an empty secret key; the resulting error is what
`NewS3Agent` returns. -/
theorem c9_validation_order (ext : Ext) (cfg : Config) :
    (cfg.endpoint = "" → validateConfig ext cfg = some "endpoint is empty") ∧
    (∀ e, cfg.endpoint ≠ "" → ext.urlParseErr cfg.endpoint = some e →
      validateConfig ext cfg =
        some ("url parse endpoint [" ++ cfg.endpoint ++ "] failed, error is [" ++ e ++ "]")) ∧
    (cfg.endpoint ≠ "" → ext.urlParseErr cfg.endpoint = none → cfg.accessKey = "" →
      validateConfig ext cfg = some "access key is empty") ∧
    (cfg.endpoint ≠ "" → ext.urlParseErr cfg.endpoint = none → cfg.accessKey ≠ "" →
      cfg.secretKey = "" → validateConfig ext cfg = some "secret key is empty") ∧
    (∀ e, validateConfig ext cfg = some e → NewS3Agent ext cfg = .error e) := by
  refine ⟨fun hep => by simp [validateConfig, hep],
    fun e hep hu => by simp [validateConfig, hep, hu],
    fun hep hu hak => by simp [validateConfig, hep, hu, hak],
    fun hep hu hak hsk => by simp [validateConfig, hep, hu, hak, hsk],
    fun e h => validate_error_propagates ext cfg e h⟩

/-- Witness for C9 at the configuration with endpoint and both keys empty:
the endpoint check fires first and its error is returned. -/
theorem c9_validation_order_witness :
    validateConfig specExt emptyBothCfg = some "endpoint is empty" ∧
    NewS3Agent specExt emptyBothCfg = .error "endpoint is empty" := by
  have h := c9_validation_order specExt emptyBothCfg
  exact ⟨h.1 rfl, h.2.2.2.2 "endpoint is empty" (h.1 rfl)⟩

/-- Claim C10: every validation error is one of the three fixed messages or
the URL-parse message, into which only the endpoint string (and the parse
error) is interpolated — the access-key and secret-key values never flow
into the message; and the validation result is unchanged under any
substitution of the two key values that preserves their emptiness, for
every external behaviour. -/
theorem c10_no_credential_leak (ext : Ext) (cfg : Config) :
    (∀ e, validateConfig ext cfg = some e →
      e = "endpoint is empty" ∨ e = "access key is empty" ∨ e = "secret key is empty" ∨
      ∃ u, ext.urlParseErr cfg.endpoint = some u ∧
        e = "url parse endpoint [" ++ cfg.endpoint ++ "] failed, error is [" ++ u ++ "]") ∧
    (∀ ak sk, (ak = "" ↔ cfg.accessKey = "") → (sk = "" ↔ cfg.secretKey = "") →
      validateConfig ext { cfg with accessKey := ak, secretKey := sk } =
        validateConfig ext cfg) := by
  constructor
  · intro e h
    by_cases hep : cfg.endpoint = ""
    · simp [validateConfig, hep] at h
      exact Or.inl h.symm
    · cases hu : ext.urlParseErr cfg.endpoint
      · by_cases hak : cfg.accessKey = ""
        · simp [validateConfig, hep, hu, hak] at h
          exact Or.inr (Or.inl h.symm)
        · by_cases hsk : cfg.secretKey = ""
          · simp [validateConfig, hep, hu, hak, hsk] at h
            exact Or.inr (Or.inr (Or.inl h.symm))
          · simp [validateConfig, hep, hu, hak, hsk] at h
      · rename_i u
        simp [validateConfig, hep, hu] at h
        exact Or.inr (Or.inr (Or.inr ⟨u, rfl, h.symm⟩))
  · intro ak sk h1 h2
    by_cases hep : cfg.endpoint = ""
    · simp [validateConfig, hep]
    · cases hu : ext.urlParseErr cfg.endpoint <;> simp [validateConfig, hep, hu, h1, h2]

/-- Witness for C10: the secret-key-empty scenario hits a fixed template,
and replacing both keys of the happy-path configuration by other non-empty
values leaves validation unchanged. -/
theorem c10_no_credential_leak_witness :
    ("secret key is empty" = "endpoint is empty" ∨
      "secret key is empty" = "access key is empty" ∨
      "secret key is empty" = "secret key is empty" ∨
      ∃ u, specExt.urlParseErr emptySecretCfg.endpoint = some u ∧
        "secret key is empty" =
          "url parse endpoint [" ++ emptySecretCfg.endpoint ++ "] failed, error is [" ++ u ++ "]") ∧
    validateConfig specExt { emptySecretCfg with accessKey := "OTHERAK", secretKey := "" } =
      validateConfig specExt emptySecretCfg :=
  ⟨(c10_no_credential_leak specExt emptySecretCfg).1 "secret key is empty" rfl,
    (c10_no_credential_leak specExt emptySecretCfg).2 "OTHERAK" "" (by decide) (by decide)⟩

end Agent
